import Mathlib

/-!
# Verification of the hotkey core of `claude-ptt`

Shallow embedding of the Wayland raw-device hotkey backend
(`src/hotkey/wayland-hotkey.ts`) and of the environment detector
(`src/hotkey/index.ts`), together with theorems settling the spec claims
about the combo parser, the modifier tracker, the edge detector, `start`,
`stop`, and the backend selection.
-/

namespace ClaudePTT

/-- The fixed name-to-code table `KEY_CODES` from `wayland-hotkey.ts`
(Linux evdev key codes). -/
def KEY_CODES : List (String × Nat) :=
  [("leftctrl", 29), ("leftshift", 42), ("leftalt", 56), ("leftmeta", 125),
   ("rightctrl", 97), ("rightshift", 54), ("rightalt", 100), ("rightmeta", 126),
   ("space", 57), ("enter", 28), ("tab", 15), ("escape", 1), ("backspace", 14),
   ("a", 30), ("b", 48), ("c", 46), ("d", 32), ("e", 18), ("f", 33), ("g", 34), ("h", 35),
   ("i", 23), ("j", 36), ("k", 37), ("l", 38), ("m", 50), ("n", 49), ("o", 24), ("p", 25),
   ("q", 16), ("r", 19), ("s", 31), ("t", 20), ("u", 22), ("v", 47), ("w", 17), ("x", 45),
   ("y", 21), ("z", 44),
   ("1", 2), ("2", 3), ("3", 4), ("4", 5), ("5", 6), ("6", 7), ("7", 8), ("8", 9),
   ("9", 10), ("0", 11),
   ("f1", 59), ("f2", 60), ("f3", 61), ("f4", 62), ("f5", 63), ("f6", 64),
   ("f7", 65), ("f8", 66), ("f9", 67), ("f10", 68), ("f11", 87), ("f12", 88)]

/-- First-match association lookup (JS object property access on the
literal `KEY_CODES` object, whose keys are distinct). -/
def lookupKeyCode : List (String × Nat) → String → Option Nat
  | [], _ => none
  | e :: rest, part => if e.1 = part then some e.2 else lookupKeyCode rest part

/-- Lookup in `KEY_CODES` (the TS expression `KEY_CODES[part]`,
`undefined` becoming `none`). -/
def keyCodeOf (part : String) : Option Nat :=
  lookupKeyCode KEY_CODES part

/-- JS `String.prototype.split('+')` on the character list: split at every
`'+'`, keeping empty pieces (`"a+" → ["a", ""]`, `"" → [""]`). -/
def splitOnPlus : List Char → List (List Char)
  | [] => [[]]
  | c :: cs =>
    if c = '+' then [] :: splitOnPlus cs
    else
      match splitOnPlus cs with
      | [] => [[c]]
      | t :: ts => (c :: t) :: ts

/-- Whitespace characters removed by JS `String.prototype.trim()`
(the ASCII ones, which are the only ones hotkey strings contain). -/
def isJsWhitespace (c : Char) : Bool :=
  c = ' ' ∨ c = '\t' ∨ c = '\n' ∨ c = '\r' ∨ c = '\x0b' ∨ c = '\x0c'

/-- JS `String.prototype.trim()` on the character list: drop leading and
trailing whitespace. -/
def trimChars (l : List Char) : List Char :=
  ((l.dropWhile isJsWhitespace).reverse.dropWhile isJsWhitespace).reverse

/-- The `ParsedHotkey` record of `wayland-hotkey.ts` (the spec's ComboSpec):
four modifier flags and an optional primary key code (`null` becoming
`none`). -/
structure ParsedHotkey where
  ctrl : Bool
  shift : Bool
  alt : Bool
  meta : Bool
  key : Option Nat
deriving DecidableEq, Repr

/-- The body of the `for (const part of parts)` loop of `parseHotkey`:
one token updates the accumulated `ParsedHotkey` (the `switch` statement). -/
def applyToken (r : ParsedHotkey) (part : String) : ParsedHotkey :=
  if part = "ctrl" ∨ part = "control" then { r with ctrl := true }
  else if part = "shift" then { r with shift := true }
  else if part = "alt" then { r with alt := true }
  else if part = "meta" ∨ part = "cmd" ∨ part = "win" ∨ part = "super" then
    { r with meta := true }
  else
    match keyCodeOf part with
    | some keyCode => { r with key := some keyCode }
    | none => r

/-- The all-false `ParsedHotkey` that `parseHotkey` starts from. -/
def emptyParsed : ParsedHotkey :=
  { ctrl := false, shift := false, alt := false, meta := false, key := none }

/-- The token list `hotkey.split('+').map(k => k.trim().toLowerCase())`
of `parseHotkey` (`Char.toLower` is JS `toLowerCase` on the ASCII letters
involved). -/
def hotkeyTokens (hotkey : String) : List String :=
  (splitOnPlus hotkey.data).map fun t => String.mk ((trimChars t).map Char.toLower)

/-- `parseHotkey` from `wayland-hotkey.ts`: split on `+`, trim and lowercase
each token, then fold the `switch` over the tokens. -/
def parseHotkey (hotkey : String) : ParsedHotkey :=
  (hotkeyTokens hotkey).foldl applyToken emptyParsed

/-- The `ModifierState` record: live ctrl/shift/alt/meta booleans. -/
structure ModifierState where
  ctrl : Bool
  shift : Bool
  alt : Bool
  meta : Bool
deriving DecidableEq, Repr

/-- The all-false modifier state the listener is constructed with and reset
to on `stop`. -/
def emptyModifiers : ModifierState :=
  { ctrl := false, shift := false, alt := false, meta := false }

/-- `updateModifierState` from `wayland-hotkey.ts`: a key code that is a
left or right variant of a modifier sets that modifier's boolean to
`pressed`; any other code leaves the state unchanged.  The literals are the
`KEY_CODES` entries the source `switch` names
(`leftctrl`/`rightctrl` = 29/97, `leftshift`/`rightshift` = 42/54,
`leftalt`/`rightalt` = 56/100, `leftmeta`/`rightmeta` = 125/126). -/
def updateModifierState (ms : ModifierState) (keyCode : Nat) (pressed : Bool) :
    ModifierState :=
  if keyCode = 29 ∨ keyCode = 97 then { ms with ctrl := pressed }
  else if keyCode = 42 ∨ keyCode = 54 then { ms with shift := pressed }
  else if keyCode = 56 ∨ keyCode = 100 then { ms with alt := pressed }
  else if keyCode = 125 ∨ keyCode = 126 then { ms with meta := pressed }
  else ms

/-- `checkHotkeyMatch` from `wayland-hotkey.ts`: all four modifier booleans
must equal the parsed hotkey's flags exactly, and if the hotkey has a
primary key the pressed key code must equal it. -/
def checkHotkeyMatch (ph : ParsedHotkey) (ms : ModifierState) (keyCode : Nat) :
    Bool :=
  if ph.ctrl ≠ ms.ctrl then false
  else if ph.shift ≠ ms.shift then false
  else if ph.alt ≠ ms.alt then false
  else if ph.meta ≠ ms.meta then false
  else
    match ph.key with
    | some k => if k ≠ keyCode then false else true
    | none => true

/-- The two logical edge events the listener emits
(`hotkey:down` = engaged, `hotkey:up` = released). -/
inductive Emit where
  | engaged
  | released
deriving DecidableEq, Repr

/-- The mutable state the decode loops share: `modifierState` and
`isHotkeyActive` (the spec's ModifierState and EngagementState). -/
structure EngineState where
  modifierState : ModifierState
  isHotkeyActive : Bool
deriving DecidableEq, Repr

/-- The state the listener starts in: all modifiers false, not engaged. -/
def initialEngineState : EngineState :=
  { modifierState := emptyModifiers, isHotkeyActive := false }

/-- The `if (type === EV_KEY)` body of `readEventsFromDevice`, for one
decoded key-event record `(code, value)`: first
`updateModifierState(code, value === KEY_PRESS)` for every key event, then
the press branch (`value === KEY_PRESS`) that may emit `engaged`, then the
release branch (`value === KEY_RELEASE`) that may emit `released`.
Returns the new shared state and the list of emitted edge events. -/
def processKeyEvent (ph : ParsedHotkey) (s : EngineState) (code : Nat)
    (value : Int) : EngineState × List Emit :=
  let ms := updateModifierState s.modifierState code (value = 1)
  if value = 1 then
    if ¬ s.isHotkeyActive ∧ checkHotkeyMatch ph ms code then
      ({ modifierState := ms, isHotkeyActive := true }, [Emit.engaged])
    else
      ({ modifierState := ms, isHotkeyActive := s.isHotkeyActive }, [])
  else if value = 0 then
    if s.isHotkeyActive then
      match ph.key with
      | some k =>
        if code = k then
          ({ modifierState := ms, isHotkeyActive := false }, [Emit.released])
        else
          ({ modifierState := ms, isHotkeyActive := s.isHotkeyActive }, [])
      | none => ({ modifierState := ms, isHotkeyActive := s.isHotkeyActive }, [])
    else
      ({ modifierState := ms, isHotkeyActive := s.isHotkeyActive }, [])
  else
    ({ modifierState := ms, isHotkeyActive := s.isHotkeyActive }, [])

/-- One decoded evdev record `(type, code, value)`: only records whose type
is `EV_KEY` (= 1) are interpreted, all others are discarded. -/
def processEvent (ph : ParsedHotkey) (s : EngineState) (type code : Nat)
    (value : Int) : EngineState × List Emit :=
  if type = 1 then processKeyEvent ph s code value else (s, [])

/-- Run a sequence of key events `(code, value)` through the decode loop,
collecting all emitted edge events. -/
def runKeyEvents (ph : ParsedHotkey) (s : EngineState) :
    List (Nat × Int) → EngineState × List Emit
  | [] => (s, [])
  | e :: rest =>
    let r := processKeyEvent ph s e.1 e.2
    let r' := runKeyEvents ph r.1 rest
    (r'.1, r.2 ++ r'.2)

/-- The error events the backend can emit (the `error` event kind), named
after the two emission sites relevant to `start`. -/
inductive ErrorEvent where
  | cannotReadInputDir
  | noKeyboardDevices
deriving DecidableEq, Repr

/-- One entry of `/dev/input` as `findKeyboardDevices` sees it: the file
name plus the result of reading the companion sysfs capability file
(`none` when that read throws). -/
structure InputDirEntry where
  name : String
  caps : Option String
deriving DecidableEq, Repr

/-- `findKeyboardDevices` from `wayland-hotkey.ts`.  Input: `none` when
`fs.readdirSync('/dev/input')` throws, otherwise the directory entries.
Output: the kept device paths and the error events emitted.  A file is a
candidate when its name starts with `event`; a candidate is kept when its
trimmed capability string is longer than 10 characters, or when the
capability file cannot be read at all. -/
def findKeyboardDevices (dir : Option (List InputDirEntry)) :
    List String × List ErrorEvent :=
  match dir with
  | none => ([], [ErrorEvent.cannotReadInputDir])
  | some files =>
    (files.filterMap fun f =>
      if ("event".data).isPrefixOf f.name.data then
        match f.caps with
        | some caps =>
          if (trimChars caps.data).length > 10 then
            some ("/dev/input/" ++ f.name)
          else none
        | none => some ("/dev/input/" ++ f.name)
      else none,
     [])

/-- The per-instance listener state `stop` and `start` manipulate:
`isRunning`, `isHotkeyActive`, the shared `modifierState`, and whether the
abort controller's signal is set. -/
structure ListenerState where
  isRunning : Bool
  isHotkeyActive : Bool
  modifierState : ModifierState
  aborted : Bool
deriving DecidableEq, Repr

/-- The state a freshly constructed listener is in. -/
def initialListenerState : ListenerState :=
  { isRunning := false, isHotkeyActive := false,
    modifierState := emptyModifiers, aborted := false }

/-- `start` from `wayland-hotkey.ts`, with device discovery made explicit.
Returns the new listener state, the error events emitted, and the device
paths for which a read loop was started.  A second `start` on a running
listener returns immediately; zero discovered devices emit one further
error and start no loop; otherwise a fresh (un-aborted) abort controller
is installed and one loop starts per device. -/
def start (s : ListenerState) (dir : Option (List InputDirEntry)) :
    ListenerState × List ErrorEvent × List String :=
  if s.isRunning then (s, [], [])
  else
    let s1 := { s with isRunning := true }
    let fd := findKeyboardDevices dir
    if fd.1.length = 0 then
      (s1, fd.2 ++ [ErrorEvent.noKeyboardDevices], [])
    else
      ({ s1 with aborted := false }, fd.2, fd.1)

/-- `stop` from `wayland-hotkey.ts`: a no-op unless running; otherwise
clears `isRunning` and `isHotkeyActive`, aborts the shared signal, and
resets the modifier state to all-false.  It emits no edge events. -/
def stop (s : ListenerState) : ListenerState × List Emit :=
  if s.isRunning then
    ({ isRunning := false, isHotkeyActive := false,
       modifierState := emptyModifiers, aborted := true }, [])
  else (s, [])

/-- The platform and environment signals `isWayland` in
`src/hotkey/index.ts` inspects (`none` = variable unset). -/
structure Env where
  platform : String
  xdgSessionType : Option String
  waylandDisplay : Option String
deriving DecidableEq, Repr

/-- `isWayland` from `src/hotkey/index.ts`: linux and either
`XDG_SESSION_TYPE === 'wayland'` or `WAYLAND_DISPLAY !== undefined`. -/
def isWayland (e : Env) : Bool :=
  decide (e.platform = "linux") &&
    (decide (e.xdgSessionType = some "wayland") || e.waylandDisplay.isSome)

/-- The two backends `createHotkeyListener` can instantiate. -/
inductive BackendChoice where
  | waylandHotkeyListener
  | uiohookHotkeyListener
deriving DecidableEq, Repr

/-- The backend selection of `createHotkeyListener` in
`src/hotkey/index.ts`: the raw-device (Wayland) backend when `isWayland`,
otherwise the uiohook hook backend. -/
def createHotkeyListener (e : Env) : BackendChoice :=
  if isWayland e then BackendChoice.waylandHotkeyListener
  else BackendChoice.uiohookHotkeyListener

/-- Tracking of one modifier over a sequence of `(code, pressed)` updates:
the value written by the last update whose code satisfies `isVar`, or the
initial value when no update touches the modifier. -/
def lastModWrite (isVar : Nat → Bool) (init : Bool) : List (Nat × Bool) → Bool
  | [] => init
  | e :: rest => lastModWrite isVar (if isVar e.1 then e.2 else init) rest

/-- Fold `updateModifierState` over a sequence of `(code, pressed)`
updates. -/
def runModifierUpdates (ms : ModifierState) : List (Nat × Bool) → ModifierState
  | [] => ms
  | e :: rest => runModifierUpdates (updateModifierState ms e.1 e.2) rest

theorem checkHotkeyMatch_eq_true (ph : ParsedHotkey) (ms : ModifierState)
    (code : Nat) :
    checkHotkeyMatch ph ms code = true ↔
      ph.ctrl = ms.ctrl ∧ ph.shift = ms.shift ∧ ph.alt = ms.alt ∧
      ph.meta = ms.meta ∧ (ph.key = none ∨ ph.key = some code) := by
  unfold checkHotkeyMatch
  rcases hk : ph.key with _ | k <;> simp only [hk] <;> split_ifs <;> simp_all

theorem processKeyEvent_modifierState (ph : ParsedHotkey) (s : EngineState)
    (code : Nat) (value : Int) :
    (processKeyEvent ph s code value).1.modifierState =
      updateModifierState s.modifierState code (decide (value = 1)) := by
  rcases hk : ph.key with _ | k <;>
    simp only [processKeyEvent, hk] <;> split_ifs <;> rfl

theorem updateModifierState_ctrl (ms : ModifierState) (c : Nat) (p : Bool) :
    (updateModifierState ms c p).ctrl = if c = 29 ∨ c = 97 then p else ms.ctrl := by
  unfold updateModifierState
  split_ifs <;> rfl

theorem updateModifierState_shift (ms : ModifierState) (c : Nat) (p : Bool) :
    (updateModifierState ms c p).shift = if c = 42 ∨ c = 54 then p else ms.shift := by
  unfold updateModifierState
  split_ifs <;> first | rfl | omega

theorem updateModifierState_alt (ms : ModifierState) (c : Nat) (p : Bool) :
    (updateModifierState ms c p).alt = if c = 56 ∨ c = 100 then p else ms.alt := by
  unfold updateModifierState
  split_ifs <;> first | rfl | omega

theorem updateModifierState_meta (ms : ModifierState) (c : Nat) (p : Bool) :
    (updateModifierState ms c p).meta = if c = 125 ∨ c = 126 then p else ms.meta := by
  unfold updateModifierState
  split_ifs <;> first | rfl | omega

theorem runModifierUpdates_fields (l : List (Nat × Bool)) (ms : ModifierState) :
    (runModifierUpdates ms l).ctrl =
        lastModWrite (fun c => decide (c = 29 ∨ c = 97)) ms.ctrl l ∧
      (runModifierUpdates ms l).shift =
        lastModWrite (fun c => decide (c = 42 ∨ c = 54)) ms.shift l ∧
      (runModifierUpdates ms l).alt =
        lastModWrite (fun c => decide (c = 56 ∨ c = 100)) ms.alt l ∧
      (runModifierUpdates ms l).meta =
        lastModWrite (fun c => decide (c = 125 ∨ c = 126)) ms.meta l := by
  induction l generalizing ms with
  | nil => exact ⟨rfl, rfl, rfl, rfl⟩
  | cons e rest ih =>
    have h := ih (updateModifierState ms e.1 e.2)
    refine ⟨?_, ?_, ?_, ?_⟩ <;>
      simp only [runModifierUpdates, lastModWrite, h.1, h.2.1, h.2.2.1, h.2.2.2,
        updateModifierState_ctrl, updateModifierState_shift,
        updateModifierState_alt, updateModifierState_meta] <;>
      split_ifs with hc <;> simp_all

theorem runKeyEvents_modifierState (evs : List (Nat × Int)) (ph : ParsedHotkey)
    (s : EngineState) :
    (runKeyEvents ph s evs).1.modifierState =
      runModifierUpdates s.modifierState
        (evs.map fun e => (e.1, decide (e.2 = 1))) := by
  induction evs generalizing s with
  | nil => rfl
  | cons e rest ih =>
    simp only [runKeyEvents, List.map, runModifierUpdates]
    rw [ih, processKeyEvent_modifierState]

/-- C1: a key press (value 1) arriving while the engine is not engaged
emits `engaged` exactly when, after the press has been applied to the
modifier state, all four modifier booleans equal the parsed hotkey's four
flags and, when the hotkey has a primary key, the pressed code equals
it. -/
theorem engaged_iff_exact_match (ph : ParsedHotkey) (s : EngineState)
    (code : Nat) (h : s.isHotkeyActive = false) :
    (processKeyEvent ph s code 1).2 = [Emit.engaged] ↔
      (ph.ctrl = (updateModifierState s.modifierState code true).ctrl ∧
       ph.shift = (updateModifierState s.modifierState code true).shift ∧
       ph.alt = (updateModifierState s.modifierState code true).alt ∧
       ph.meta = (updateModifierState s.modifierState code true).meta ∧
       (ph.key = none ∨ ph.key = some code)) := by
  rw [← checkHotkeyMatch_eq_true ph (updateModifierState s.modifierState code true) code]
  cases hm : checkHotkeyMatch ph (updateModifierState s.modifierState code true) code <;>
    simp [processKeyEvent, h, hm]

/-- Witness for C1 at the concrete spec Ctrl+Space: pressing Space (57)
with exactly Ctrl held emits `engaged`. -/
theorem engaged_iff_exact_match_witness :
    (processKeyEvent ⟨true, false, false, false, some 57⟩
        { modifierState := { ctrl := true, shift := false, alt := false, meta := false },
          isHotkeyActive := false } 57 1).2 = [Emit.engaged] :=
  (engaged_iff_exact_match ⟨true, false, false, false, some 57⟩
      { modifierState := { ctrl := true, shift := false, alt := false, meta := false },
        isHotkeyActive := false } 57 rfl).mpr (by decide)

/-- C3 (code evaluated at the failing input): an autorepeat record
(value 2) for left-ctrl (code 29), processed while ctrl is held and the
engine is engaged, emits nothing and leaves the engagement flag alone —
but it sets the ctrl modifier boolean to `false`, because the loop passes
`value === KEY_PRESS` (false for value 2) into `updateModifierState` for
every key event. -/
theorem autorepeat_clears_held_modifier :
    processKeyEvent ⟨true, false, false, false, some 57⟩
        { modifierState := { ctrl := true, shift := false, alt := false, meta := false },
          isHotkeyActive := true } 29 2 =
      ({ modifierState := { ctrl := false, shift := false, alt := false, meta := false },
         isHotkeyActive := true }, []) := by
  decide

/-- C4 counterexample: press left-ctrl (29), press right-ctrl (97), then
release right-ctrl; left-ctrl is still physically held, yet the ctrl
boolean is `false` — `updateModifierState` overwrites the shared boolean
with the last event's pressed value instead of merging the two
variants. -/
theorem merged_modifier_counterexample :
    ¬ ((runKeyEvents ⟨true, false, false, false, some 57⟩ initialEngineState
          [(29, 1), (97, 1), (97, 0)]).1.modifierState.ctrl = true) := by
  decide

/-- C4 amended: over every sequence of key events, each modifier boolean
equals the pressed value of the most recent event whose code is one of
that modifier's two variants (last writer wins), not the disjunction of
the two variants' physical states. -/
theorem modifier_last_writer_wins (ph : ParsedHotkey) (s : EngineState)
    (evs : List (Nat × Int)) :
    (runKeyEvents ph s evs).1.modifierState.ctrl =
        lastModWrite (fun c => decide (c = 29 ∨ c = 97)) s.modifierState.ctrl
          (evs.map fun e => (e.1, decide (e.2 = 1))) ∧
      (runKeyEvents ph s evs).1.modifierState.shift =
        lastModWrite (fun c => decide (c = 42 ∨ c = 54)) s.modifierState.shift
          (evs.map fun e => (e.1, decide (e.2 = 1))) ∧
      (runKeyEvents ph s evs).1.modifierState.alt =
        lastModWrite (fun c => decide (c = 56 ∨ c = 100)) s.modifierState.alt
          (evs.map fun e => (e.1, decide (e.2 = 1))) ∧
      (runKeyEvents ph s evs).1.modifierState.meta =
        lastModWrite (fun c => decide (c = 125 ∨ c = 126)) s.modifierState.meta
          (evs.map fun e => (e.1, decide (e.2 = 1))) := by
  rw [runKeyEvents_modifierState]
  exact runModifierUpdates_fields _ _

/-- C5: `stop` on a running listener clears the engagement flag, emits no
edge event, and resets all four modifier booleans to false. -/
theorem stop_disengages_and_resets (s : ListenerState)
    (h : s.isRunning = true) :
    (stop s).1.isHotkeyActive = false ∧ (stop s).2 = [] ∧
      (stop s).1.modifierState = emptyModifiers := by
  simp [stop, h]

/-- Witness for C5: `stop` on a running, engaged listener with ctrl held. -/
theorem stop_disengages_and_resets_witness :
    (stop { isRunning := true, isHotkeyActive := true,
            modifierState := { ctrl := true, shift := false, alt := false, meta := false },
            aborted := false }).1.isHotkeyActive = false ∧
      (stop { isRunning := true, isHotkeyActive := true,
              modifierState := { ctrl := true, shift := false, alt := false, meta := false },
              aborted := false }).2 = [] ∧
      (stop { isRunning := true, isHotkeyActive := true,
              modifierState := { ctrl := true, shift := false, alt := false, meta := false },
              aborted := false }).1.modifierState = emptyModifiers :=
  stop_disengages_and_resets _ rfl

/-- C8: `parseHotkey` is a pure function (equal inputs give equal
ComboSpecs), and it is case- and whitespace-insensitive on the documented
examples: `"ctrl+space"`, `" Ctrl + Space "` and `"CTRL+SPACE"` all parse
to the identical ComboSpec. -/
theorem parse_pure_and_insensitive :
    (∀ s : String, parseHotkey s = parseHotkey s) ∧
      parseHotkey "ctrl+space" = parseHotkey " Ctrl + Space " ∧
      parseHotkey " Ctrl + Space " = parseHotkey "CTRL+SPACE" ∧
      parseHotkey "ctrl+space" = parseHotkey "CTRL+SPACE" :=
  ⟨fun _ => rfl, by decide, by decide, by decide⟩

/-- C2: the engagement flag follows the two-state machine: from idle
(`isHotkeyActive = false`) the only transition to engaged is a press
(value 1) that matches the spec against the just-updated modifier state;
from engaged the only event-driven transition back is a release (value 0)
of the spec's primary key; while engaged no `engaged` is ever re-emitted,
and any event whose code is not the primary key (for instance the release
of a modifier alone) emits nothing and leaves the flag engaged.  Stated
for every shared state, so it covers every position in every event
sequence starting from `initialEngineState`. -/
theorem engagement_two_state_machine (ph : ParsedHotkey) (s : EngineState)
    (code : Nat) (value : Int) :
    (s.isHotkeyActive = false →
      ((processKeyEvent ph s code value).1.isHotkeyActive = true ↔
        value = 1 ∧
          checkHotkeyMatch ph (updateModifierState s.modifierState code true)
            code = true)) ∧
    (s.isHotkeyActive = true →
      ((processKeyEvent ph s code value).1.isHotkeyActive = false ↔
        value = 0 ∧ ph.key = some code)) ∧
    (s.isHotkeyActive = true →
      Emit.engaged ∉ (processKeyEvent ph s code value).2) ∧
    (s.isHotkeyActive = true → ph.key ≠ some code →
      (processKeyEvent ph s code value).2 = [] ∧
      (processKeyEvent ph s code value).1.isHotkeyActive = true) := by
  by_cases hv1 : value = 1
  · subst hv1
    cases hs : s.isHotkeyActive <;>
      cases hm : checkHotkeyMatch ph
          (updateModifierState s.modifierState code true) code <;>
        simp_all [processKeyEvent]
  · by_cases hv0 : value = 0
    · subst hv0
      cases hs : s.isHotkeyActive <;> rcases hk : ph.key with _ | k <;>
        simp_all [processKeyEvent] <;> by_cases hck : code = k <;> simp_all <;>
        omega
    · cases hs : s.isHotkeyActive <;> simp_all [processKeyEvent]

/-- Witness for C2 at Ctrl+Space: releasing left-shift (42) while engaged
emits nothing and leaves the engine engaged. -/
theorem engagement_two_state_machine_witness :
    (processKeyEvent ⟨true, false, false, false, some 57⟩
        { modifierState := { ctrl := true, shift := false, alt := false, meta := false },
          isHotkeyActive := true } 42 0).2 = [] ∧
      (processKeyEvent ⟨true, false, false, false, some 57⟩
          { modifierState := { ctrl := true, shift := false, alt := false, meta := false },
            isHotkeyActive := true } 42 0).1.isHotkeyActive = true :=
  (engagement_two_state_machine ⟨true, false, false, false, some 57⟩
      { modifierState := { ctrl := true, shift := false, alt := false, meta := false },
        isHotkeyActive := true } 42 0).2.2.2 rfl (by decide)

/-- The modifier tokens the `switch` of `parseHotkey` recognizes before
falling through to the `KEY_CODES` lookup. -/
def modifierKeywords : List String :=
  ["ctrl", "control", "shift", "alt", "meta", "cmd", "win", "super"]

/-- C7 counterexample: `KEY_CODES` has no `return` or `esc` entries, so
`"ctrl+return"` does not parse to the same primary key as `"ctrl+enter"`
(nor `"ctrl+esc"` as `"ctrl+escape"`): the unknown alias is silently
dropped and the parsed hotkey has no primary key. -/
theorem return_esc_alias_counterexample :
    ¬ ((parseHotkey "ctrl+return").key = (parseHotkey "ctrl+enter").key) ∧
      ¬ ((parseHotkey "ctrl+esc").key = (parseHotkey "ctrl+escape").key) ∧
      (parseHotkey "ctrl+return").key = none ∧
      (parseHotkey "ctrl+esc").key = none := by
  decide

/-- C7 amended: non-modifier tokens are resolved exactly per `KEY_CODES`,
which contains `enter` and `escape` but no `return`/`esc` aliases; a token
absent from the table (including `return` and `esc`) is silently ignored,
leaving the ComboSpec without a primary key rather than failing. -/
theorem unknown_tokens_ignored :
    (∀ (r : ParsedHotkey) (part : String), part ∉ modifierKeywords →
        keyCodeOf part = none → applyToken r part = r) ∧
      (∀ (r : ParsedHotkey) (part : String) (k : Nat), part ∉ modifierKeywords →
        keyCodeOf part = some k → applyToken r part = { r with key := some k }) ∧
      keyCodeOf "return" = none ∧ keyCodeOf "esc" = none ∧
      keyCodeOf "enter" = some 28 ∧ keyCodeOf "escape" = some 1 ∧
      parseHotkey "ctrl+return" = { emptyParsed with ctrl := true } ∧
      parseHotkey "ctrl+esc" = { emptyParsed with ctrl := true } := by
  refine ⟨?_, ?_, by decide, by decide, by decide, by decide, by decide, by decide⟩
  · intro r part hmem hk
    simp [modifierKeywords] at hmem
    obtain ⟨h1, h2, h3, h4, h5, h6, h7, h8⟩ := hmem
    simp [applyToken, h1, h2, h3, h4, h5, h6, h7, h8, hk]
  · intro r part k hmem hk
    simp [modifierKeywords] at hmem
    obtain ⟨h1, h2, h3, h4, h5, h6, h7, h8⟩ := hmem
    simp [applyToken, h1, h2, h3, h4, h5, h6, h7, h8, hk]

/-- Witness for C7 (amended): the unknown token `bogus` leaves the
accumulator unchanged, while `space` resolves to code 57. -/
theorem unknown_tokens_ignored_witness :
    applyToken emptyParsed "bogus" = emptyParsed ∧
      applyToken emptyParsed "space" = { emptyParsed with key := some 57 } :=
  ⟨unknown_tokens_ignored.1 emptyParsed "bogus" (by decide) (by decide),
   unknown_tokens_ignored.2.1 emptyParsed "space" 57 (by decide) (by decide)⟩

/-- C9 counterexample: when the input directory itself cannot be read,
discovery finds zero devices but the backend emits TWO error events (one
from `findKeyboardDevices`, one from `start`), not exactly one; no read
loop is started. -/
theorem start_two_errors_counterexample :
    (findKeyboardDevices none).1 = [] ∧
      (start initialListenerState none).2.1 =
        [ErrorEvent.cannotReadInputDir, ErrorEvent.noKeyboardDevices] ∧
      ¬ ((start initialListenerState none).2.1.length = 1) ∧
      (start initialListenerState none).2.2 = [] := by
  decide

/-- C9 amended: `start` on a non-running listener with zero discovered
devices starts no read loop and returns normally; it emits exactly one
error when the directory was readable, and two (the discovery error plus
its own) when reading the directory failed. -/
theorem start_zero_devices_single_error (s : ListenerState)
    (entries : List InputDirEntry) (h : s.isRunning = false) :
    ((findKeyboardDevices (some entries)).1 = [] →
        (start s (some entries)).2.1 = [ErrorEvent.noKeyboardDevices] ∧
          (start s (some entries)).2.2 = []) ∧
      ((start s none).2.1 =
          [ErrorEvent.cannotReadInputDir, ErrorEvent.noKeyboardDevices] ∧
        (start s none).2.2 = []) := by
  constructor
  · intro hz
    have h2 : (findKeyboardDevices (some entries)).2 = [] := rfl
    simp [start, h, hz, h2]
  · simp [start, h, findKeyboardDevices]

/-- Witness for C9 (amended): one `event` entry with a short capability
string is rejected, so discovery finds zero devices and `start` emits one
error and starts no loop. -/
theorem start_zero_devices_single_error_witness :
    (start initialListenerState (some [⟨"event0", some "short"⟩])).2.1 =
        [ErrorEvent.noKeyboardDevices] ∧
      (start initialListenerState (some [⟨"event0", some "short"⟩])).2.2 = [] :=
  (start_zero_devices_single_error initialListenerState
      [⟨"event0", some "short"⟩] rfl).1 (by decide)

/-- C10: the detector selects the raw-device (Wayland) backend exactly
when the platform is linux and either the session type equals `wayland`
or the Wayland display variable is set; in every other case — including
when both signals are absent — it selects the hook-capable backend.  The
selection is a total function of the three signals. -/
theorem backend_selection (e : Env) :
    (createHotkeyListener e = BackendChoice.waylandHotkeyListener ↔
        e.platform = "linux" ∧
          (e.xdgSessionType = some "wayland" ∨ e.waylandDisplay ≠ none)) ∧
      (e.xdgSessionType = none ∧ e.waylandDisplay = none →
        createHotkeyListener e = BackendChoice.uiohookHotkeyListener) ∧
      (createHotkeyListener e = BackendChoice.waylandHotkeyListener ∨
        createHotkeyListener e = BackendChoice.uiohookHotkeyListener) := by
  have hiff : isWayland e = true ↔
      e.platform = "linux" ∧
        (e.xdgSessionType = some "wayland" ∨ e.waylandDisplay ≠ none) := by
    simp [isWayland, Option.isSome_iff_ne_none]
  refine ⟨?_, ?_, ?_⟩
  · rw [← hiff]
    unfold createHotkeyListener
    split_ifs with hw <;> simp_all
  · rintro ⟨h1, h2⟩
    unfold createHotkeyListener
    split_ifs with hw
    · rw [hiff] at hw
      simp [h1, h2] at hw
    · rfl
  · unfold createHotkeyListener
    split_ifs <;> simp

/-- Witness for C10: a linux Wayland session selects the raw-device
backend; macOS with both signals absent selects the hook backend. -/
theorem backend_selection_witness :
    createHotkeyListener ⟨"linux", some "wayland", none⟩ =
        BackendChoice.waylandHotkeyListener ∧
      createHotkeyListener ⟨"darwin", none, none⟩ =
        BackendChoice.uiohookHotkeyListener :=
  ⟨(backend_selection ⟨"linux", some "wayland", none⟩).1.mpr ⟨rfl, Or.inl rfl⟩,
   (backend_selection ⟨"darwin", none, none⟩).2.1 ⟨rfl, rfl⟩⟩

end ClaudePTT
